import Mathlib

/-!
Shallow embedding of the Club 5 to 7 Telegram bot (`src/bot.py`): the
command handlers, the JSON/PostgreSQL persistence wrappers and the webhook
endpoint, together with theorems settling the frozen claims about them.

Handlers are modelled as pure functions from the sender identity, the
argument tokens and the durable store state to a `HandlerResult` that
records the reply, the new store state and whether the handler performed a
load or a save.  Python string operations (`" ".join`, `split(';', 3)`,
`strip`, `startswith`, `len`) are modelled as executable functions on
`List Char`.
-/

namespace Club57

/-- Python `len(s)`: number of characters. -/
def pyLen (s : String) : Nat := s.data.length

/-- Python `s.strip()`: drop whitespace at both ends. -/
def pyStrip (s : String) : String :=
  String.mk (((s.data.dropWhile Char.isWhitespace).reverse.dropWhile
      Char.isWhitespace).reverse)

/-- `isPrefixChars p c` holds when the character list `p` starts `c`. -/
def isPrefixChars : List Char → List Char → Bool
  | [], _ => true
  | _ :: _, [] => false
  | p :: ps, c :: cs => p = c && isPrefixChars ps cs

/-- Python `s.startswith(pre)`. -/
def pyStartswith (s pre : String) : Bool := isPrefixChars pre.data s.data

/-- Python `" ".join(args)`. -/
def pyJoin : List String → String
  | [] => ""
  | [s] => s
  | s :: rest => s ++ " " ++ pyJoin rest

/-- Split off everything before the first occurrence of `sep`, when there
is one, together with the remainder after it. -/
def splitFirst (sep : Char) : List Char → Option (List Char × List Char)
  | [] => none
  | c :: cs =>
    if c = sep then some ([], cs)
    else
      match splitFirst sep cs with
      | none => none
      | some pr => some (c :: pr.1, pr.2)

/-- Python `s.split(sep, maxsplit)` on character lists: split at most `n`
times, leftmost first. -/
def pySplitLimitChars (sep : Char) : Nat → List Char → List (List Char)
  | 0, cs => [cs]
  | n + 1, cs =>
    match splitFirst sep cs with
    | none => [cs]
    | some pr => pr.1 :: pySplitLimitChars sep n pr.2

/-- Python `full_input.split(';', 3)` as used by `setmeetup_command`. -/
def pySplit3 (s : String) : List String :=
  (pySplitLimitChars ';' 3 s.data).map fun cs => String.mk cs

/-- Helper for the unlimited split: `acc` is the current piece reversed. -/
def splitAllAux (sep : Char) : List Char → List Char → List (List Char)
  | acc, [] => [acc.reverse]
  | acc, c :: cs =>
    if c = sep then acc.reverse :: splitAllAux sep [] cs
    else splitAllAux sep (c :: acc) cs

/-- Python `s.split(';')` (no limit), used only to state the part-count
claim about multi-field parsing. -/
def pySplitAll (s : String) : List String :=
  (splitAllAux ';' [] s.data).map fun cs => String.mk cs

/-! ## Data model -/

/-- The singleton "next meetup" record (`NEXT_MEETUP_*` globals). -/
structure MeetupRecord where
  date : String
  timeOfDay : String
  locationDisplay : String
  locationUrl : String
  deriving DecidableEq, Repr

/-- The durable store: the meetup record and the two suggestion lists. -/
structure BotState where
  meetup : MeetupRecord
  filmSuggestions : List String
  themeSuggestions : List String
  deriving DecidableEq, Repr

def DEFAULT_MEETUP_DATE : String := "Sunday, July 28"
def DEFAULT_MEETUP_TIME_OF_DAY : String := "5:00 PM"
def DEFAULT_MEETUP_LOCATION_DISPLAY : String := "The Coffee Shop"
def DEFAULT_MEETUP_LOCATION_URL : String :=
  "https://maps.app.goo.gl/YourCoffeeShopLocation"

/-- The default meetup record (`DEFAULT_MEETUP_*` constants). -/
def defaultMeetup : MeetupRecord :=
  ⟨DEFAULT_MEETUP_DATE, DEFAULT_MEETUP_TIME_OF_DAY,
   DEFAULT_MEETUP_LOCATION_DISPLAY, DEFAULT_MEETUP_LOCATION_URL⟩

/-- `reset_to_defaults`: default record, empty suggestion lists. -/
def defaultState : BotState := ⟨defaultMeetup, [], []⟩

/-- The reply a handler sends back, one constructor per distinct message
in `src/bot.py`. -/
inductive Reply where
  | adminDisabled
  | notAuthorized
  | usage (current : MeetupRecord)
  | formatError
  | badDate
  | badTime
  | badLocation
  | badUrl
  | updated
  | usageSuggest
  | emptyText
  | textTooLong
  | added
  | alreadyPresent
  | usageRemove
  | notFound
  | removed
  | removeFailed
  deriving DecidableEq, Repr

/-- Observable outcome of one handler invocation: the reply, the store
state afterwards, and whether the handler loaded from / saved to the
persistence store. -/
structure HandlerResult where
  reply : Reply
  state : BotState
  didLoad : Bool
  didSave : Bool
  deriving DecidableEq, Repr

/-! ## Persistence wrappers (JSON backend semantics) -/

/-- `add_film_suggestion_and_save` (JSON branch): append and save. -/
def add_film_suggestion_and_save (title : String) (films : List String) :
    List String :=
  films ++ [title]

/-- `add_theme_suggestion_and_save` (JSON branch): append and save. -/
def add_theme_suggestion_and_save (theme : String) (themes : List String) :
    List String :=
  themes ++ [theme]

/-- Result of a removal wrapper: whether a removal occurred, the resulting
list, and whether a save was performed. -/
structure RemoveResult where
  removed : Bool
  suggestions : List String
  saved : Bool
  deriving DecidableEq, Repr

/-- `remove_film_suggestion_and_save` (JSON branch): remove the first
exact match if present, save, and report whether a removal occurred. -/
def remove_film_suggestion_and_save (title : String) (films : List String) :
    RemoveResult :=
  if title ∈ films then ⟨true, films.erase title, true⟩
  else ⟨false, films, false⟩

/-- `remove_theme_suggestion_and_save` (JSON branch). -/
def remove_theme_suggestion_and_save (theme : String) (themes : List String) :
    RemoveResult :=
  if theme ∈ themes then ⟨true, themes.erase theme, true⟩
  else ⟨false, themes, false⟩

/-! ## Command handlers -/

/-- `setmeetup_command`: admin gate, token-count check, join + limited
semicolon split, per-field validation, then wholesale record replacement
and save. -/
def setmeetup_command (adminId : Option Int) (userId : Int)
    (args : List String) (st : BotState) : HandlerResult :=
  match adminId with
  | none => ⟨Reply.adminDisabled, st, false, false⟩
  | some aid =>
    if userId ≠ aid then ⟨Reply.notAuthorized, st, false, false⟩
    else if args.length < 4 then ⟨Reply.usage st.meetup, st, true, false⟩
    else
      let parts := pySplit3 (pyJoin args)
      if parts.length ≠ 4 then ⟨Reply.formatError, st, false, false⟩
      else
        let d := pyStrip (parts.getD 0 "")
        let t := pyStrip (parts.getD 1 "")
        let l := pyStrip (parts.getD 2 "")
        let u := pyStrip (parts.getD 3 "")
        if d = "" ∨ 50 < pyLen d then ⟨Reply.badDate, st, false, false⟩
        else if t = "" ∨ 50 < pyLen t then ⟨Reply.badTime, st, false, false⟩
        else if l = "" ∨ 100 < pyLen l then
          ⟨Reply.badLocation, st, false, false⟩
        else if u = "" ∨ ¬(pyStartswith u "http://" = true ∨
            pyStartswith u "https://" = true) then
          ⟨Reply.badUrl, st, false, false⟩
        else ⟨Reply.updated, { st with meetup := ⟨d, t, l, u⟩ }, false, true⟩

/-- `suggest_film`: validate the text, load, then append unless already
present. -/
def suggest_film (args : List String) (st : BotState) : HandlerResult :=
  if args = [] then ⟨Reply.usageSuggest, st, false, false⟩
  else
    let title := pyStrip (pyJoin args)
    if title = "" then ⟨Reply.emptyText, st, false, false⟩
    else if 200 < pyLen title then ⟨Reply.textTooLong, st, false, false⟩
    else if title ∈ st.filmSuggestions then
      ⟨Reply.alreadyPresent, st, true, false⟩
    else
      ⟨Reply.added,
       { st with filmSuggestions :=
          add_film_suggestion_and_save title st.filmSuggestions },
       true, true⟩

/-- `suggest_theme`: same shape as `suggest_film` on the theme list. -/
def suggest_theme (args : List String) (st : BotState) : HandlerResult :=
  if args = [] then ⟨Reply.usageSuggest, st, false, false⟩
  else
    let theme := pyStrip (pyJoin args)
    if theme = "" then ⟨Reply.emptyText, st, false, false⟩
    else if 200 < pyLen theme then ⟨Reply.textTooLong, st, false, false⟩
    else if theme ∈ st.themeSuggestions then
      ⟨Reply.alreadyPresent, st, true, false⟩
    else
      ⟨Reply.added,
       { st with themeSuggestions :=
          add_theme_suggestion_and_save theme st.themeSuggestions },
       true, true⟩

/-- `remove_film`: admin gate, load, membership check, then the removal
wrapper. -/
def remove_film (adminId : Option Int) (userId : Int) (args : List String)
    (st : BotState) : HandlerResult :=
  match adminId with
  | none => ⟨Reply.adminDisabled, st, false, false⟩
  | some aid =>
    if userId ≠ aid then ⟨Reply.notAuthorized, st, false, false⟩
    else if args = [] then ⟨Reply.usageRemove, st, false, false⟩
    else
      let title := pyStrip (pyJoin args)
      if title ∉ st.filmSuggestions then ⟨Reply.notFound, st, true, false⟩
      else
        let res := remove_film_suggestion_and_save title st.filmSuggestions
        if res.removed then
          ⟨Reply.removed, { st with filmSuggestions := res.suggestions },
           true, res.saved⟩
        else
          ⟨Reply.removeFailed, { st with filmSuggestions := res.suggestions },
           true, res.saved⟩

/-- `remove_theme`: same shape as `remove_film` on the theme list. -/
def remove_theme (adminId : Option Int) (userId : Int) (args : List String)
    (st : BotState) : HandlerResult :=
  match adminId with
  | none => ⟨Reply.adminDisabled, st, false, false⟩
  | some aid =>
    if userId ≠ aid then ⟨Reply.notAuthorized, st, false, false⟩
    else if args = [] then ⟨Reply.usageRemove, st, false, false⟩
    else
      let theme := pyStrip (pyJoin args)
      if theme ∉ st.themeSuggestions then ⟨Reply.notFound, st, true, false⟩
      else
        let res := remove_theme_suggestion_and_save theme st.themeSuggestions
        if res.removed then
          ⟨Reply.removed, { st with themeSuggestions := res.suggestions },
           true, res.saved⟩
        else
          ⟨Reply.removeFailed, { st with themeSuggestions := res.suggestions },
           true, res.saved⟩

/-! ## Load paths -/

/-- One parsed JSON document, each key possibly absent (`data.get`). -/
structure JsonDoc where
  next_meetup_date : Option String
  next_meetup_time_of_day : Option String
  next_meetup_location_display : Option String
  next_meetup_location_url : Option String
  film_suggestions : Option (List String)
  theme_suggestions : Option (List String)
  deriving DecidableEq, Repr

/-- The observable condition of the backing JSON file. -/
inductive JsonFile where
  | missing
  | corrupt
  | parsed (doc : JsonDoc)
  deriving DecidableEq, Repr

/-- `load_data_json`: returns the resulting state and whether defaults
were written back to the file (`save_data_json` after
`reset_to_defaults`). -/
def load_data_json : JsonFile → BotState × Bool
  | JsonFile.missing => (defaultState, true)
  | JsonFile.corrupt => (defaultState, true)
  | JsonFile.parsed doc =>
    (⟨⟨doc.next_meetup_date.getD DEFAULT_MEETUP_DATE,
       doc.next_meetup_time_of_day.getD DEFAULT_MEETUP_TIME_OF_DAY,
       doc.next_meetup_location_display.getD DEFAULT_MEETUP_LOCATION_DISPLAY,
       doc.next_meetup_location_url.getD DEFAULT_MEETUP_LOCATION_URL⟩,
      doc.film_suggestions.getD [],
      doc.theme_suggestions.getD []⟩,
     false)

/-- The observable condition of the relational backend at load time. -/
inductive DbBackend where
  | unreachable
  | loadError
  | ready (meetupRow : Option MeetupRecord) (films themes : List String)
  deriving DecidableEq, Repr

/-- `load_data_db`: returns the resulting state and whether any defaults
were written back to the database.  On no connection or a load error the
code only calls `reset_to_defaults`; when the meetup table is empty it
inserts the default meetup row. -/
def load_data_db : DbBackend → BotState × Bool
  | DbBackend.unreachable => (defaultState, false)
  | DbBackend.loadError => (defaultState, false)
  | DbBackend.ready none films themes => (⟨defaultMeetup, films, themes⟩, true)
  | DbBackend.ready (some r) films themes => (⟨r, films, themes⟩, false)

/-! ## Webhook endpoint -/

/-- HTTP reply of the webhook endpoint: status code and the value of the
`status` field of the JSON body. -/
structure WebhookResponse where
  httpStatus : Nat
  statusField : String
  deriving DecidableEq, Repr

/-- `telegram_webhook`: the body parse / enqueue step either succeeds or
raises; the exception is caught and both paths reach the same
`return`. -/
def telegram_webhook (processing : Except String Unit) : WebhookResponse :=
  match processing with
  | Except.ok _ => ⟨200, "ok"⟩
  | Except.error _ => ⟨200, "ok"⟩

/-! ## Validation predicates used to state the claims -/

/-- Failure of the 50-character date/time validation (`not s or len(s) > 50`). -/
def fieldFails50 (s : String) : Prop := s = "" ∨ 50 < pyLen s

/-- Failure of the 100-character location validation. -/
def fieldFails100 (s : String) : Prop := s = "" ∨ 100 < pyLen s

/-- Failure of the URL validation (`not s or not s.startswith(...)`). -/
def urlFails (s : String) : Prop :=
  s = "" ∨ ¬(pyStartswith s "http://" = true ∨ pyStartswith s "https://" = true)

instance (s : String) : Decidable (fieldFails50 s) := by
  unfold fieldFails50; infer_instance

instance (s : String) : Decidable (fieldFails100 s) := by
  unfold fieldFails100; infer_instance

instance (s : String) : Decidable (urlFails s) := by
  unfold urlFails; infer_instance

/-- The `setmeetup` argument text fails validation: wrong part count after
the join/split, or some trimmed field fails its check. -/
def setmeetupInvalid (args : List String) : Prop :=
  (pySplit3 (pyJoin args)).length ≠ 4 ∨
  fieldFails50 (pyStrip ((pySplit3 (pyJoin args)).getD 0 "")) ∨
  fieldFails50 (pyStrip ((pySplit3 (pyJoin args)).getD 1 "")) ∨
  fieldFails100 (pyStrip ((pySplit3 (pyJoin args)).getD 2 "")) ∨
  urlFails (pyStrip ((pySplit3 (pyJoin args)).getD 3 ""))

instance (args : List String) : Decidable (setmeetupInvalid args) := by
  unfold setmeetupInvalid; infer_instance

/-- A denied admin-gated invocation: denial reply, untouched state, and no
load or save of the persistence store. -/
def deniedNoStoreAccess (st : BotState) (r : HandlerResult) : Prop :=
  (r.reply = Reply.adminDisabled ∨ r.reply = Reply.notAuthorized) ∧
  r.state = st ∧ r.didLoad = false ∧ r.didSave = false

/-- A JSON document whose stored film list already contains a duplicate. -/
def dupDoc : JsonDoc :=
  ⟨none, none, none, none, some ["Dune", "Dune"], none⟩

/-! ## Helper lemmas -/

/-- A split with at most `n` cuts yields at most `n + 1` pieces. -/
theorem pySplitLimitChars_length_le (sep : Char) :
    ∀ (n : Nat) (cs : List Char),
      (pySplitLimitChars sep n cs).length ≤ n + 1
  | 0, cs => by simp [pySplitLimitChars]
  | n + 1, cs => by
    unfold pySplitLimitChars
    cases h : splitFirst sep cs with
    | none => simp
    | some pr =>
      have ih := pySplitLimitChars_length_le sep n pr.2
      simp only [List.length_cons]
      omega

/-- `split(';', 3)` yields at most 4 parts. -/
theorem pySplit3_length_le (s : String) : (pySplit3 s).length ≤ 4 := by
  unfold pySplit3
  rw [List.length_map]
  exact pySplitLimitChars_length_le ';' 3 s.data

/-! ## Claim theorems -/

/-- C8: for every POST /webhook request, whether the inner parse/enqueue
step succeeds or raises, `telegram_webhook` replies HTTP 200 with body
status "ok"; the error is never surfaced to the HTTP caller. -/
theorem webhook_always_ok (p : Except String Unit) :
    telegram_webhook p = ⟨200, "ok"⟩ := by
  cases p <;> rfl

/-- C9: a `setmeetup` invocation by the configured admin with fewer than 4
whitespace-separated argument tokens replies with the usage text showing
the current meetup values, loads but does not mutate or save the store —
even when the tokens would parse into 4 valid semicolon-separated
fields. -/
theorem setmeetup_few_tokens_usage (aid : Int) (args : List String)
    (st : BotState) (hlen : args.length < 4) :
    setmeetup_command (some aid) aid args st =
      ⟨Reply.usage st.meetup, st, true, false⟩ := by
  simp only [setmeetup_command]
  rw [if_neg (show ¬(aid ≠ aid) by simp), if_pos hlen]

/-- Witness for C9: the single token `July30;6PM;Cinema;https://x` holds 4
valid semicolon-separated fields, yet the handler answers with the usage
reply and changes nothing. -/
theorem setmeetup_few_tokens_usage_witness :
    pySplit3 (pyJoin ["July30;6PM;Cinema;https://x"]) =
      ["July30", "6PM", "Cinema", "https://x"] ∧
    setmeetup_command (some 1) 1 ["July30;6PM;Cinema;https://x"]
        defaultState =
      ⟨Reply.usage defaultMeetup, defaultState, true, false⟩ :=
  ⟨by decide,
   setmeetup_few_tokens_usage 1 ["July30;6PM;Cinema;https://x"]
     defaultState (by decide)⟩

/-- C10: loading a parsed JSON document copies the stored film and theme
suggestion lists verbatim, with no deduplication; hence a backing file
with duplicates yields in-memory lists violating the no-duplicates
invariant. -/
theorem load_json_copies_lists_verbatim :
    (∀ doc : JsonDoc,
      (load_data_json (JsonFile.parsed doc)).1.filmSuggestions =
        doc.film_suggestions.getD [] ∧
      (load_data_json (JsonFile.parsed doc)).1.themeSuggestions =
        doc.theme_suggestions.getD []) ∧
    ¬ (load_data_json (JsonFile.parsed dupDoc)).1.filmSuggestions.Nodup := by
  refine ⟨fun doc => ⟨rfl, rfl⟩, ?_⟩
  decide

/-- Counterexample to C7 as stated: with the relational backend
unreachable, `load_data_db` returns the defaults but does not write them
back to the backing store. -/
theorem load_db_unreachable_counterexample :
    (load_data_db DbBackend.unreachable).1 = defaultState ∧
    (load_data_db DbBackend.unreachable).2 = false := by
  exact ⟨rfl, rfl⟩

/-- C7 (amended): the JSON load returns defaults and writes them back on a
missing or corrupt file; the relational load on an unreachable backend or
a load error returns the defaults in memory only, without writing them
back (and never raises to the caller). -/
theorem load_defaults_writeback :
    load_data_json JsonFile.missing = (defaultState, true) ∧
    load_data_json JsonFile.corrupt = (defaultState, true) ∧
    load_data_db DbBackend.unreachable = (defaultState, false) ∧
    load_data_db DbBackend.loadError = (defaultState, false) := by
  exact ⟨rfl, rfl, rfl, rfl⟩

/-- C4: any admin-gated command (`setmeetup`, `removefilm`, `removetheme`)
invoked without a configured admin identifier, or by a sender other than
the admin, replies with the fixed disabled/denial message and neither
reads nor writes the persistence store, regardless of the arguments. -/
theorem admin_gate_denial (adminId : Option Int) (userId : Int)
    (args : List String) (st : BotState)
    (hdeny : ∀ a : Int, adminId = some a → userId ≠ a) :
    deniedNoStoreAccess st (setmeetup_command adminId userId args st) ∧
    deniedNoStoreAccess st (remove_film adminId userId args st) ∧
    deniedNoStoreAccess st (remove_theme adminId userId args st) := by
  cases adminId with
  | none =>
    exact ⟨⟨Or.inl rfl, rfl, rfl, rfl⟩, ⟨Or.inl rfl, rfl, rfl, rfl⟩,
      ⟨Or.inl rfl, rfl, rfl, rfl⟩⟩
  | some a =>
    have huser : userId ≠ a := hdeny a rfl
    unfold deniedNoStoreAccess
    simp [setmeetup_command, remove_film, remove_theme, if_pos huser]

/-- Witness for C4: sender 2 is denied when the admin is 1, with the store
untouched, even though the arguments are a fully valid field list. -/
theorem admin_gate_denial_witness :
    deniedNoStoreAccess defaultState
      (setmeetup_command (some 1) 2
        ["a", ";", "b", ";", "c", ";", "http://x"] defaultState) ∧
    deniedNoStoreAccess defaultState
      (remove_film (some 1) 2
        ["a", ";", "b", ";", "c", ";", "http://x"] defaultState) ∧
    deniedNoStoreAccess defaultState
      (remove_theme (some 1) 2
        ["a", ";", "b", ";", "c", ";", "http://x"] defaultState) :=
  admin_gate_denial (some 1) 2 ["a", ";", "b", ";", "c", ";", "http://x"]
    defaultState (by intro a ha; cases ha; decide)

/-- Counterexample to C1 as stated: the single token `a;b;c;http://x`
joined and split yields exactly 4 parts that all pass validation, yet the
handler answers with the usage reply and neither updates nor persists the
record, because the token-count check fires first. -/
theorem setmeetup_single_token_counterexample :
    pySplit3 (pyJoin ["a;b;c;http://x"]) = ["a", "b", "c", "http://x"] ∧
    ¬ setmeetupInvalid ["a;b;c;http://x"] ∧
    setmeetup_command (some 1) 1 ["a;b;c;http://x"] defaultState =
      ⟨Reply.usage defaultMeetup, defaultState, true, false⟩ :=
  ⟨by decide, by decide, by decide⟩

/-- C1 (amended): a `setmeetup` invocation by the configured admin with at
least 4 argument tokens, whose argument text joined with single spaces and
split on `;` yields exactly 4 parts that each pass validation, replaces
the MeetupRecord with the four trimmed fields, leaves the suggestion
lists untouched, and persists the record. -/
theorem setmeetup_valid_multitoken_updates (aid : Int) (args : List String)
    (st : BotState) (a b c d : String)
    (hlen : 4 ≤ args.length)
    (hparts : pySplit3 (pyJoin args) = [a, b, c, d])
    (hd : ¬ fieldFails50 (pyStrip a))
    (ht : ¬ fieldFails50 (pyStrip b))
    (hl : ¬ fieldFails100 (pyStrip c))
    (hu : ¬ urlFails (pyStrip d)) :
    (setmeetup_command (some aid) aid args st).state.meetup =
      ⟨pyStrip a, pyStrip b, pyStrip c, pyStrip d⟩ ∧
    (setmeetup_command (some aid) aid args st).state.filmSuggestions =
      st.filmSuggestions ∧
    (setmeetup_command (some aid) aid args st).state.themeSuggestions =
      st.themeSuggestions ∧
    (setmeetup_command (some aid) aid args st).reply = Reply.updated ∧
    (setmeetup_command (some aid) aid args st).didSave = true := by
  have h1 : ¬(aid ≠ aid) := by simp
  have h2 : ¬(args.length < 4) := by omega
  simp only [setmeetup_command, if_neg h1, if_neg h2, hparts]
  rw [if_neg (show ¬(([a, b, c, d] : List String).length ≠ 4) by simp)]
  simp only [List.getD_cons_zero, List.getD_cons_succ]
  rw [if_neg (show ¬(pyStrip a = "" ∨ 50 < pyLen (pyStrip a)) from hd),
    if_neg (show ¬(pyStrip b = "" ∨ 50 < pyLen (pyStrip b)) from ht),
    if_neg (show ¬(pyStrip c = "" ∨ 100 < pyLen (pyStrip c)) from hl),
    if_neg (show ¬(pyStrip d = "" ∨
      ¬(pyStartswith (pyStrip d) "http://" = true ∨
        pyStartswith (pyStrip d) "https://" = true)) from hu)]
  exact ⟨rfl, rfl, rfl, rfl, rfl⟩

/-- Witness for C1 (amended) at the spec's own scenario input. -/
theorem setmeetup_valid_multitoken_updates_witness :
    (setmeetup_command (some 1) 1
      ["Aug", "16", ";", "6:00", "PM", ";", "Downtown", "Cinema", ";",
       "https://example.com/x"] defaultState).state.meetup =
      ⟨"Aug 16", "6:00 PM", "Downtown Cinema", "https://example.com/x"⟩ ∧
    (setmeetup_command (some 1) 1
      ["Aug", "16", ";", "6:00", "PM", ";", "Downtown", "Cinema", ";",
       "https://example.com/x"] defaultState).didSave = true := by
  have h := setmeetup_valid_multitoken_updates 1
    ["Aug", "16", ";", "6:00", "PM", ";", "Downtown", "Cinema", ";",
     "https://example.com/x"] defaultState
    "Aug 16 " " 6:00 PM " " Downtown Cinema " " https://example.com/x"
    (by decide) (by decide) (by decide) (by decide) (by decide) (by decide)
  exact ⟨h.1, h.2.2.2.2⟩

/-- C2: every `setmeetup` invocation whose argument text fails validation
(wrong part count, empty or oversize date/time/location field, or a URL
with a bad scheme) does not produce the success reply, leaves the store
state completely unchanged, and performs no persistence call — whoever
the sender is. -/
theorem setmeetup_invalid_no_mutation (adminId : Option Int) (userId : Int)
    (args : List String) (st : BotState)
    (hinv : setmeetupInvalid args) :
    (setmeetup_command adminId userId args st).reply ≠ Reply.updated ∧
    (setmeetup_command adminId userId args st).state = st ∧
    (setmeetup_command adminId userId args st).didSave = false := by
  cases adminId with
  | none => exact ⟨by simp [setmeetup_command], rfl, rfl⟩
  | some aid =>
    simp only [setmeetup_command]
    split_ifs with h1 h2 h3 h4 h5 h6 h7
    all_goals try exact ⟨by simp, rfl, rfl⟩
    exfalso
    unfold setmeetupInvalid at hinv
    rcases hinv with h | h | h | h | h
    · exact h3 h
    · exact h4 h
    · exact h5 h
    · exact h6 h
    · exact h7 h

/-- Witness for C2: a URL without the `http(s)://` scheme is rejected with
no mutation and no save. -/
theorem setmeetup_invalid_no_mutation_witness :
    setmeetupInvalid ["a", ";", "b", ";", "c", ";", "ftp://x"] ∧
    (setmeetup_command (some 1) 1 ["a", ";", "b", ";", "c", ";", "ftp://x"]
        defaultState).reply ≠ Reply.updated ∧
    (setmeetup_command (some 1) 1 ["a", ";", "b", ";", "c", ";", "ftp://x"]
        defaultState).state = defaultState ∧
    (setmeetup_command (some 1) 1 ["a", ";", "b", ";", "c", ";", "ftp://x"]
        defaultState).didSave = false :=
  ⟨by decide,
   setmeetup_invalid_no_mutation (some 1) 1
     ["a", ";", "b", ";", "c", ";", "ftp://x"] defaultState (by decide)⟩

/-- Counterexample to C3 as stated: an argument text holding 5
semicolon-delimited fields (part count 5 under an unlimited split) does
not get the format-error reply — the limited `split(';', 3)` folds the
excess into the fourth field and the update succeeds, the extra text
ending up inside the stored URL. -/
theorem setmeetup_excess_fields_counterexample :
    (pySplitAll (pyJoin
      ["a", ";", "b", ";", "c", ";", "http://x", ";", "extra"])).length = 5 ∧
    setmeetup_command (some 1) 1
        ["a", ";", "b", ";", "c", ";", "http://x", ";", "extra"]
        defaultState =
      ⟨Reply.updated, ⟨⟨"a", "b", "c", "http://x ; extra"⟩, [], []⟩,
       false, true⟩ :=
  ⟨by decide, by decide⟩

/-- C3 (amended): the raw arguments are joined with single spaces and
split on `;` at most 3 times, so at most 4 parts ever arise; fewer than 4
parts yields the fixed format-error reply with the store untouched, while
a fifth or later semicolon-delimited field simply stays inside the fourth
part. -/
theorem setmeetup_parse_rule (aid : Int) (args : List String)
    (st : BotState) (hlen : 4 ≤ args.length) :
    (pySplit3 (pyJoin args)).length ≤ 4 ∧
    ((pySplit3 (pyJoin args)).length ≠ 4 →
      setmeetup_command (some aid) aid args st =
        ⟨Reply.formatError, st, false, false⟩) := by
  refine ⟨pySplit3_length_le _, fun hne => ?_⟩
  have h1 : ¬(aid ≠ aid) := by simp
  have h2 : ¬(args.length < 4) := by omega
  simp only [setmeetup_command, if_neg h1, if_neg h2]
  rw [if_pos hne]

/-- Witness for C3 (amended): 4 tokens with no semicolon give one part
and the format-error reply. -/
theorem setmeetup_parse_rule_witness :
    (pySplit3 (pyJoin ["a", "b", "c", "d"])).length ≤ 4 ∧
    setmeetup_command (some 1) 1 ["a", "b", "c", "d"] defaultState =
      ⟨Reply.formatError, defaultState, false, false⟩ := by
  have h := setmeetup_parse_rule 1 ["a", "b", "c", "d"] defaultState
    (by decide)
  exact ⟨h.1, h.2 (by decide)⟩

/-- C5: starting from suggestion lists satisfying the no-duplicates
invariant, a valid suggestion leaves exactly one entry for its text and a
duplicate-free list, and suggesting the same text again replies that it
is already present without appending — for both the film and the theme
list. -/
theorem suggest_twice_single_entry (args : List String) (st : BotState)
    (hargs : ¬ args = [])
    (hne : ¬ pyStrip (pyJoin args) = "")
    (hlen : ¬ 200 < pyLen (pyStrip (pyJoin args)))
    (hndf : st.filmSuggestions.Nodup)
    (hndt : st.themeSuggestions.Nodup) :
    ((suggest_film args st).state.filmSuggestions.count
        (pyStrip (pyJoin args)) = 1 ∧
      (suggest_film args st).state.filmSuggestions.Nodup ∧
      suggest_film args (suggest_film args st).state =
        ⟨Reply.alreadyPresent, (suggest_film args st).state, true, false⟩) ∧
    ((suggest_theme args st).state.themeSuggestions.count
        (pyStrip (pyJoin args)) = 1 ∧
      (suggest_theme args st).state.themeSuggestions.Nodup ∧
      suggest_theme args (suggest_theme args st).state =
        ⟨Reply.alreadyPresent, (suggest_theme args st).state, true,
         false⟩) := by
  constructor
  · by_cases hmem : pyStrip (pyJoin args) ∈ st.filmSuggestions
    · have hr : suggest_film args st = ⟨Reply.alreadyPresent, st, true,
          false⟩ := by
        simp only [suggest_film, if_neg hargs, if_neg hne, if_neg hlen,
          if_pos hmem]
      rw [hr]
      refine ⟨List.count_eq_one_of_mem hndf hmem, hndf, ?_⟩
      simp only [suggest_film, if_neg hargs, if_neg hne, if_neg hlen,
        if_pos hmem]
    · have hr : suggest_film args st = ⟨Reply.added,
          { st with filmSuggestions :=
            st.filmSuggestions ++ [pyStrip (pyJoin args)] }, true,
          true⟩ := by
        simp only [suggest_film, add_film_suggestion_and_save,
          if_neg hargs, if_neg hne, if_neg hlen, if_neg hmem]
      rw [hr]
      have hcount : (st.filmSuggestions ++
          [pyStrip (pyJoin args)]).count (pyStrip (pyJoin args)) = 1 := by
        rw [List.count_append, List.count_eq_zero_of_not_mem hmem]
        simp
      have hnd : (st.filmSuggestions ++
          [pyStrip (pyJoin args)]).Nodup := by
        refine List.nodup_append.mpr ⟨hndf, List.nodup_singleton _, ?_⟩
        intro x hx hx'
        rw [List.mem_singleton.mp hx'] at hx
        exact hmem hx
      have hmem2 : pyStrip (pyJoin args) ∈
          st.filmSuggestions ++ [pyStrip (pyJoin args)] :=
        List.mem_append_right _ (List.mem_singleton_self _)
      refine ⟨hcount, hnd, ?_⟩
      simp only [suggest_film, if_neg hargs, if_neg hne, if_neg hlen,
        if_pos hmem2]
  · by_cases hmem : pyStrip (pyJoin args) ∈ st.themeSuggestions
    · have hr : suggest_theme args st = ⟨Reply.alreadyPresent, st, true,
          false⟩ := by
        simp only [suggest_theme, if_neg hargs, if_neg hne, if_neg hlen,
          if_pos hmem]
      rw [hr]
      refine ⟨List.count_eq_one_of_mem hndt hmem, hndt, ?_⟩
      simp only [suggest_theme, if_neg hargs, if_neg hne, if_neg hlen,
        if_pos hmem]
    · have hr : suggest_theme args st = ⟨Reply.added,
          { st with themeSuggestions :=
            st.themeSuggestions ++ [pyStrip (pyJoin args)] }, true,
          true⟩ := by
        simp only [suggest_theme, add_theme_suggestion_and_save,
          if_neg hargs, if_neg hne, if_neg hlen, if_neg hmem]
      rw [hr]
      have hcount : (st.themeSuggestions ++
          [pyStrip (pyJoin args)]).count (pyStrip (pyJoin args)) = 1 := by
        rw [List.count_append, List.count_eq_zero_of_not_mem hmem]
        simp
      have hnd : (st.themeSuggestions ++
          [pyStrip (pyJoin args)]).Nodup := by
        refine List.nodup_append.mpr ⟨hndt, List.nodup_singleton _, ?_⟩
        intro x hx hx'
        rw [List.mem_singleton.mp hx'] at hx
        exact hmem hx
      have hmem2 : pyStrip (pyJoin args) ∈
          st.themeSuggestions ++ [pyStrip (pyJoin args)] :=
        List.mem_append_right _ (List.mem_singleton_self _)
      refine ⟨hcount, hnd, ?_⟩
      simp only [suggest_theme, if_neg hargs, if_neg hne, if_neg hlen,
        if_pos hmem2]

/-- Witness for C5: suggesting "Dune" twice from the default state leaves
the film list with exactly one "Dune" and the second call replies that it
is already present. -/
theorem suggest_twice_single_entry_witness :
    (suggest_film ["Dune"] defaultState).state.filmSuggestions.count
      (pyStrip (pyJoin ["Dune"])) = 1 ∧
    suggest_film ["Dune"] (suggest_film ["Dune"] defaultState).state =
      ⟨Reply.alreadyPresent, (suggest_film ["Dune"] defaultState).state,
       true, false⟩ := by
  have h := suggest_twice_single_entry ["Dune"] defaultState (by decide)
    (by decide) (by decide) (by decide) (by decide)
  exact ⟨h.1.1, h.1.2.2⟩

/-- C6: an admin `removefilm`/`removetheme` on a text not in the
(duplicate-free) list replies not-found and changes nothing; on a present
text it removes the first exact match, shrinking the list by exactly one
so the text no longer appears, and saves; the removal wrappers return
whether a removal occurred. -/
theorem remove_suggestion_correct (aid : Int) (args : List String)
    (st : BotState) (hargs : ¬ args = [])
    (hndf : st.filmSuggestions.Nodup)
    (hndt : st.themeSuggestions.Nodup) :
    ((pyStrip (pyJoin args) ∉ st.filmSuggestions →
        remove_film (some aid) aid args st =
          ⟨Reply.notFound, st, true, false⟩) ∧
      (pyStrip (pyJoin args) ∈ st.filmSuggestions →
        (remove_film (some aid) aid args st).reply = Reply.removed ∧
        (remove_film (some aid) aid args st).state.filmSuggestions.length
            + 1 = st.filmSuggestions.length ∧
        pyStrip (pyJoin args) ∉
          (remove_film (some aid) aid args st).state.filmSuggestions ∧
        (remove_film (some aid) aid args st).didSave = true)) ∧
    ((pyStrip (pyJoin args) ∉ st.themeSuggestions →
        remove_theme (some aid) aid args st =
          ⟨Reply.notFound, st, true, false⟩) ∧
      (pyStrip (pyJoin args) ∈ st.themeSuggestions →
        (remove_theme (some aid) aid args st).reply = Reply.removed ∧
        (remove_theme (some aid) aid args st).state.themeSuggestions.length
            + 1 = st.themeSuggestions.length ∧
        pyStrip (pyJoin args) ∉
          (remove_theme (some aid) aid args st).state.themeSuggestions ∧
        (remove_theme (some aid) aid args st).didSave = true)) ∧
    (∀ (s : String) (l : List String),
      (remove_film_suggestion_and_save s l).removed = decide (s ∈ l)) ∧
    (∀ (s : String) (l : List String),
      (remove_theme_suggestion_and_save s l).removed = decide (s ∈ l)) := by
  have hself : ¬(aid ≠ aid) := by simp
  refine ⟨⟨fun hnm => ?_, fun hm => ?_⟩, ⟨fun hnm => ?_, fun hm => ?_⟩,
    fun s l => ?_, fun s l => ?_⟩
  · simp only [remove_film, if_neg hself, if_neg hargs, if_pos hnm]
  · have hw : remove_film_suggestion_and_save (pyStrip (pyJoin args))
        st.filmSuggestions =
        ⟨true, st.filmSuggestions.erase (pyStrip (pyJoin args)), true⟩ := by
      simp only [remove_film_suggestion_and_save, if_pos hm]
    have hr : remove_film (some aid) aid args st = ⟨Reply.removed,
        { st with filmSuggestions :=
          st.filmSuggestions.erase (pyStrip (pyJoin args)) }, true,
        true⟩ := by
      simp only [remove_film, if_neg hself, if_neg hargs,
        if_neg (show ¬(pyStrip (pyJoin args) ∉ st.filmSuggestions) from
          not_not_intro hm), hw, if_pos]
    rw [hr]
    refine ⟨rfl, ?_, ?_, rfl⟩
    · show (st.filmSuggestions.erase (pyStrip (pyJoin args))).length + 1 =
        st.filmSuggestions.length
      have := List.length_erase_of_mem hm
      have := List.length_pos_of_mem hm
      omega
    · intro hc
      exact (hndf.mem_erase_iff.mp hc).1 rfl
  · simp only [remove_theme, if_neg hself, if_neg hargs, if_pos hnm]
  · have hw : remove_theme_suggestion_and_save (pyStrip (pyJoin args))
        st.themeSuggestions =
        ⟨true, st.themeSuggestions.erase (pyStrip (pyJoin args)), true⟩ := by
      simp only [remove_theme_suggestion_and_save, if_pos hm]
    have hr : remove_theme (some aid) aid args st = ⟨Reply.removed,
        { st with themeSuggestions :=
          st.themeSuggestions.erase (pyStrip (pyJoin args)) }, true,
        true⟩ := by
      simp only [remove_theme, if_neg hself, if_neg hargs,
        if_neg (show ¬(pyStrip (pyJoin args) ∉ st.themeSuggestions) from
          not_not_intro hm), hw, if_pos]
    rw [hr]
    refine ⟨rfl, ?_, ?_, rfl⟩
    · show (st.themeSuggestions.erase (pyStrip (pyJoin args))).length + 1 =
        st.themeSuggestions.length
      have := List.length_erase_of_mem hm
      have := List.length_pos_of_mem hm
      omega
    · intro hc
      exact (hndt.mem_erase_iff.mp hc).1 rfl
  · by_cases hmem : s ∈ l
    · simp [remove_film_suggestion_and_save, hmem]
    · simp [remove_film_suggestion_and_save, hmem]
  · by_cases hmem : s ∈ l
    · simp [remove_theme_suggestion_and_save, hmem]
    · simp [remove_theme_suggestion_and_save, hmem]

/-- Witness for C6: removing "Dune" from a film list holding it succeeds
and removing the same text from a theme list not holding it reports
not-found with no change. -/
theorem remove_suggestion_correct_witness :
    (remove_film (some 1) 1 ["Dune"]
      ⟨defaultMeetup, ["Dune"], ["Noir"]⟩).reply = Reply.removed ∧
    remove_theme (some 1) 1 ["Dune"] ⟨defaultMeetup, ["Dune"], ["Noir"]⟩ =
      ⟨Reply.notFound, ⟨defaultMeetup, ["Dune"], ["Noir"]⟩, true,
       false⟩ := by
  have h := remove_suggestion_correct 1 ["Dune"]
    ⟨defaultMeetup, ["Dune"], ["Noir"]⟩ (by decide) (by decide) (by decide)
  exact ⟨(h.1.2 (by decide)).1, h.2.1.1 (by decide)⟩

end Club57
